import Mathlib

/-!
Shallow embedding of the disko2 presentation layer
(`src/lib/src/private/tracing.rs` and `src/lib/src/private/eyre.rs`).

Styled terminal text is modelled as a list of segments: plain text
pieces interleaved with style markers (the ANSI SGR codes emitted by
`owo_colors`).  Applying a style wraps a styled value in an opening
marker and the reset marker `0`, exactly as `owo_colors` brackets text
with `ESC[<n>m … ESC[0m`.  Stripping markers (`console::strip_ansi_codes`
and the width measurement `console::measure_text_width`) concatenates the
text pieces; widths are character counts (all content here is ASCII).

Fallible Rust operations (`unwrap`, `expect`) are modelled with `Option`:
a `none` result is a panic of the rendering call.
-/

/-- A segment of styled terminal output: literal text or a style marker
(an SGR parameter such as 2 = dim, 1 = bold, 34 = blue). -/
inductive Seg where
  | text (s : String)
  | mark (m : Nat)
deriving DecidableEq, Repr

/-- Styled text: a sequence of text pieces and style markers. -/
abbrev Styled := List Seg

/-- Plain text lifted into styled text. -/
def txt (s : String) : Styled := [Seg.text s]

/-- Apply one style to a styled value: opening marker, body, reset marker,
mirroring how `owo_colors` brackets text with `ESC[<m>m … ESC[0m`. -/
def style (m : Nat) (s : Styled) : Styled := Seg.mark m :: s ++ [Seg.mark 0]

/-- SGR code for `.bold()`. -/
def boldC : Nat := 1
/-- SGR code for `.dimmed()`. -/
def dimC : Nat := 2
/-- SGR code for `.underline()`. -/
def underC : Nat := 4
/-- SGR code for `.red()`. -/
def redC : Nat := 31
/-- SGR code for `.green()`. -/
def greenC : Nat := 32
/-- SGR code for `.yellow()`. -/
def yellowC : Nat := 33
/-- SGR code for `.blue()`. -/
def blueC : Nat := 34
/-- SGR code for `.purple()`. -/
def purpleC : Nat := 35
/-- SGR code for `.cyan()`. -/
def cyanC : Nat := 36

/-- Remove every style marker, keeping the concatenated plain text
(model of `console::strip_ansi_codes` on a fully rendered line). -/
def strip : Styled → String
  | [] => ""
  | Seg.text s :: rest => s ++ strip rest
  | Seg.mark _ :: rest => strip rest

/-- Visible display width of styled text: the character count of the
marker-stripped text (model of `console::measure_text_width`; all text
produced by this renderer is ASCII, so width = character count). -/
def widthOf (s : Styled) : Nat := (strip s).length

/-- A run of `n` spaces (Rust `" ".repeat(n)`). -/
def spacesStr (n : Nat) : String := String.mk (List.replicate n ' ')

/-- Rust `str::split(c)` on the character list of a string: splits at every
occurrence of `c`, keeping empty fragments (so `""` yields `[""]` and
`"a  b"` yields `["a", "", "b"]`). -/
def splitChar (c : Char) : List Char → List (List Char)
  | [] => [[]]
  | x :: xs =>
    if x = c then [] :: splitChar c xs
    else
      match splitChar c xs with
      | [] => [[x]]
      | y :: ys => (x :: y) :: ys

/-- The fragments of `s` between occurrences of the space character
(Rust `fields.fields.split(' ')` in `format_event`). -/
def splitSpaces (s : String) : List String :=
  (splitChar ' ' s.data).map String.mk

/-- Rust `str::split_once(c)`: the text before the first occurrence of `c`
and the text after it, or `none` when `c` does not occur. -/
def splitOnceChar (c : Char) : List Char → Option (List Char × List Char)
  | [] => none
  | x :: xs =>
    if x = c then some ([], xs)
    else (splitOnceChar c xs).map fun p => (x :: p.1, p.2)

/-- String-level wrapper of `splitOnceChar`
(Rust `pair.split_once('=')` in `format_event`). -/
def splitOnce (s : String) (c : Char) : Option (String × String) :=
  (splitOnceChar c s.data).map fun p => (String.mk p.1, String.mk p.2)

/-- Model of `console::strip_ansi_codes` on a field fragment.  In this
embedding plain `String`s carry no inline escape bytes (markers live in
`Styled`), so the strip is the identity. -/
def strip_ansi_codes (s : String) : String := s

/-- Elapsed time since the Unix epoch, as returned by
`SystemTime::now().duration_since(UNIX_EPOCH)`: whole seconds plus the
millisecond part of the fractional second (`subsec_millis`). -/
structure Duration where
  secs : Nat
  millis : Nat
deriving DecidableEq, Repr

/-- Rust `format!("{n:02}")`: decimal, zero-padded to width at least 2. -/
def pad2 (n : Nat) : String := if n < 10 then "0" ++ toString n else toString n

/-- Rust `format!("{n:03}")`: decimal, zero-padded to width at least 3. -/
def pad3 (n : Nat) : String :=
  if n < 10 then "00" ++ toString n
  else if n < 100 then "0" ++ toString n
  else toString n

/-- `TimeFormatter::format_time` (tracing.rs, `mod time`).  The input is
the result of `duration_since(UNIX_EPOCH)`: `none` models a system clock
before the epoch, on which the `.expect("SystemTime before UNIX EPOCH!")`
panics (result `none`).  Note the source computes the seconds field with
the bitwise AND `secs & 60`, not `secs % 60`; the embedding keeps that
operation faithfully (`Nat.land`). -/
def format_time (now : Option Duration) : Option Styled := do
  let now ← now
  let secs := now.secs % (60 * 60 * 24)
  let hours := secs / (60 * 60)
  let mins := (secs % 3600) / 60
  let secs2 := Nat.land secs 60
  let millis := now.millis
  pure (style dimC (style blueC
    (txt ("[" ++ pad2 hours ++ ":" ++ pad2 mins ++ ":" ++ pad2 secs2 ++
      "." ++ pad3 millis ++ "]"))))

/-- Log severity (`tracing::Level`). -/
inductive Level where
  | trace | debug | info | warn | error
deriving DecidableEq, Repr

/-- One log event as consumed by `format_event`: level, formatted message
text, target, and optional source location from the event metadata. -/
structure LogEvent where
  level : Level
  message : String
  target : String
  file : Option String
  line : Option Nat
deriving DecidableEq, Repr

/-- One span of the event scope: its name and, when the span extensions
carry a `FormattedFields` entry, that formatted key/value text. -/
structure SpanFrame where
  name : String
  fields : Option String
deriving DecidableEq, Repr

/-- The level tag of `format_event`: a five-character label, each level
with its own colors (`TRACE`.purple, `DEBUG`.blue, `" INFO"`.green,
`" WARN"`.yellow.bold, `ERROR`.red.bold). -/
def render_level : Level → Styled
  | Level.trace => style purpleC (txt "TRACE")
  | Level.debug => style blueC (txt "DEBUG")
  | Level.info => style greenC (txt " INFO")
  | Level.warn => style boldC (style yellowC (txt " WARN"))
  | Level.error => style boldC (style redC (txt "ERROR"))

/-- The left block of `format_event`: timestamp, then a space, the dimmed
level tag, a space, and the formatted event message. -/
def render_left (now : Option Duration) (ev : LogEvent) : Option Styled := do
  let t ← format_time now
  pure (t ++ txt " " ++ style dimC (render_level ev.level) ++ txt " " ++
    txt ev.message)

/-- One `key=value` fragment of a span field text, rendered as
`key: value` (key cyan, value cyan bold, the whole pair dimmed).  A
fragment without `=` makes the `split_once('=').unwrap()` of the source
panic: result `none`. -/
def render_pair (pair : String) : Option Styled := do
  let pair := strip_ansi_codes pair
  let kv ← splitOnce pair '='
  pure (style dimC
    (style cyanC (txt kv.1) ++ txt ": " ++ style boldC (style cyanC (txt kv.2))))

/-- The `for pair in pairs` loop of `format_event`: renders every
fragment, aborting at the first fragment whose rendering panics. -/
def render_pairs : List String → Option (List Styled)
  | [] => some []
  | p :: ps => do
    let r ← render_pair p
    let rs ← render_pairs ps
    pure (r :: rs)

/-- Interleave a styled separator between styled pieces and flatten
(Rust `Vec::join` on styled strings). -/
def joinStyled (sep : Styled) (l : List Styled) : Styled :=
  (List.intersperse sep l).flatten

/-- One span of the trail: its dimmed name and, when it carries non-empty
formatted fields, a parenthesized comma-joined `key: value` list. -/
def render_span (sp : SpanFrame) : Option Styled := do
  let name := style dimC (txt sp.name)
  match sp.fields with
  | some f =>
    if f = "" then pure name
    else do
      let prs ← render_pairs (splitSpaces f)
      pure (name ++ style dimC (txt "(") ++
        joinStyled (style dimC (txt ", ")) prs ++ style dimC (txt ")"))
  | none => pure name

/-- The `for span in scope.from_root()` loop of `format_event`. -/
def render_span_list : List SpanFrame → Option (List Styled)
  | [] => some []
  | sp :: sps => do
    let i ← render_span sp
    let rest ← render_span_list sps
    pure (i :: rest)

/-- The source-location segment of the right block: space, underlined and
dimmed `file:line` (both parts blue), space; a missing file becomes
`<unknown>.rs`, a missing line becomes `??`. -/
def render_loc (file : Option String) (line : Option Nat) : Styled :=
  txt " " ++
  style underC (style dimC
    (style blueC (txt (file.getD "<unknown>.rs")) ++ txt ":" ++
     style blueC (txt ((line.map toString).getD "??")))) ++
  txt " "

/-- The right block of `format_event`: the dimmed purple target, the span
trail when `ctx.event_scope()` is `Some` (purple-dimmed parentheses around
the comma-joined span renderings), and the source-location segment. -/
def render_right (ev : LogEvent) (scope : Option (List SpanFrame)) :
    Option Styled := do
  let trail ← match scope with
    | none => pure ([] : Styled)
    | some spans => do
      let infos ← render_span_list spans
      pure (style dimC (style purpleC (txt "(")) ++
        joinStyled (style dimC (txt ", ")) infos ++
        style dimC (style purpleC (txt ")")))
  pure (style dimC (style purpleC (txt ev.target)) ++ trail ++
    render_loc ev.file ev.line)

/-- `TracingFormatter::format_event`: build the left and the right block,
measure their visible widths, pad with `term_width - width` spaces when the
total fits strictly below the terminal width and with a single space
otherwise, and emit `left ++ padding ++ right` plus the `writeln!` line
terminator.  `now` is the wall-clock reading of this call and `term_width`
the freshly queried terminal width. -/
def format_event (now : Option Duration) (term_width : Nat) (ev : LogEvent)
    (scope : Option (List SpanFrame)) : Option Styled := do
  let left ← render_left now ev
  let right ← render_right ev scope
  let width := widthOf left + widthOf right
  let spaces := if width < term_width then term_width - width else 1
  pure (left ++ txt (spacesStr spaces) ++ right ++ txt "\n")

namespace Eyre

/-- Issue URL where the user should submit an issue (eyre.rs `ISSUE_URL`). -/
def ISSUE_URL : String := "https://github.com/nix-community/disko"

/-- The data of `std::panic::PanicHookInfo` used by `PanicReport::display`:
the payload when it is a string, and the panic location file/line/column. -/
structure PanicInfo where
  payload : Option String
  location : Option (String × Nat × Nat)
deriving DecidableEq, Repr

/-- The `location` string of `PanicReport::display`: file, line and column
each purple, or the plain `"???"` when the hook carries no location. -/
def render_location (pi : PanicInfo) : Styled :=
  match pi.location with
  | some loc =>
    style purpleC (txt loc.1) ++ txt ", line " ++
    style purpleC (txt (toString loc.2.1)) ++ txt ", column " ++
    style purpleC (txt (toString loc.2.2))
  | none => txt "???"

/-- The header of `PanicReport::display`, before the crash-dump branch:
the crash banner, the message line, the thread line and the location line
(each `writeln!` ends in a newline). -/
def displayHeader (pi : PanicInfo) (thread_name : Option String)
    (thread_id : Nat) : Styled :=
  txt "\nDisko had unrecoverable error and " ++
    style boldC (style redC (txt "crashed")) ++ txt ".\n" ++
  txt "Here\x27s some info about error:\n" ++
  txt "    " ++ style boldC (style redC (txt "Message")) ++ txt ":  " ++
    style blueC (txt (pi.payload.getD "<not string>")) ++ txt "\n" ++
  txt "    " ++ style boldC (style redC (txt "Thread")) ++ txt ":   " ++
    style yellowC (txt (thread_name.getD "<no name>")) ++ txt " (id: " ++
    style yellowC (txt (toString thread_id)) ++ txt ")\n" ++
  txt "    " ++ style boldC (style redC (txt "Location")) ++ txt ": " ++
    render_location pi ++ txt "\n"

/-- `PanicReport::display` (eyre.rs).  `dump` is the outcome of
`human_panic::report::Report::persist`, the external diagnostic-storage
collaborator: `Except.ok` carries the stored path, `Except.error` the
persistence error text.  The function is total: neither branch can raise
a secondary fault. -/
def display (pi : PanicInfo) (thread_name : Option String) (thread_id : Nat)
    (dump : Except String String) : Styled :=
  displayHeader pi thread_name thread_id ++
  match dump with
  | Except.ok path =>
    txt "\nMore info saved at " ++ style blueC (txt path) ++ txt ".\n" ++
    txt "Please, submit an issue at " ++ style blueC (txt ISSUE_URL) ++
    txt " and attach report.\n"
  | Except.error e =>
    txt "\nTried to safe crashdump but failed: " ++ txt e ++ txt "\n" ++
    txt "Please, submit an issue at " ++ style blueC (txt ISSUE_URL) ++
    txt ".\n"

end Eyre

/-- Modelled from the spec: the upstream field formatter of the tracing
framework (not part of this repository) joins `key=value` pairs with
single spaces; spec section 4.1 describes the literal `=` separator and
section 3 the ordered `(key, value)` pairs of a `SpanFrame`. -/
def formatPairs (ps : List (String × String)) : String :=
  String.intercalate " " (ps.map fun kv => kv.1 ++ "=" ++ kv.2)

/-- Stripping distributes over concatenation of styled text. -/
theorem strip_append (a b : Styled) : strip (a ++ b) = strip a ++ strip b := by
  induction a with
  | nil => simp [strip]
  | cons x xs ih =>
    cases x with
    | text s => simp [strip, ih, String.append_assoc]
    | mark m => simp [strip, ih]

/-- Stripping a plain text piece returns the text itself. -/
theorem strip_txt (s : String) : strip (txt s) = s := by
  simp [txt, strip]

/-- Stripping removes the markers added by one style application. -/
theorem strip_style (m : Nat) (s : Styled) : strip (style m s) = strip s := by
  simp [style, strip, strip_append]

/-- If one fragment of the field list fails to render, the whole
pair-rendering loop fails. -/
theorem render_pairs_mem_none (l : List String) (p : String) (hp : p ∈ l)
    (hnone : render_pair p = none) : render_pairs l = none := by
  induction l with
  | nil => cases hp
  | cons x xs ih =>
    cases hp with
    | head => simp [render_pairs, hnone]
    | tail _ h =>
      cases hx : render_pair x with
      | none => simp [render_pairs, hx]
      | some r => simp [render_pairs, hx, ih h]

/-- If one span of the scope fails to render, the whole span loop fails. -/
theorem render_span_list_mem_none (l : List SpanFrame) (sp : SpanFrame)
    (hsp : sp ∈ l) (hnone : render_span sp = none) :
    render_span_list l = none := by
  induction l with
  | nil => cases hsp
  | cons x xs ih =>
    cases hsp with
    | head => simp [render_span_list, hnone]
    | tail _ h =>
      cases hx : render_span x with
      | none => simp [render_span_list, hx]
      | some r => simp [render_span_list, hx, ih h]

/-- A span whose non-empty field text space-splits into a fragment
without the `=` separator fails to render: the unchecked
`split_once('=').unwrap()` of the source panics on that fragment. -/
theorem render_span_malformed (sp : SpanFrame) (f p : String)
    (hf : sp.fields = some f) (hne : f ≠ "")
    (hp : p ∈ splitSpaces f) (hm : splitOnce (strip_ansi_codes p) '=' = none) :
    render_span sp = none := by
  have hpair : render_pair p = none := by simp [render_pair, hm]
  have hps : render_pairs (splitSpaces f) = none :=
    render_pairs_mem_none _ _ hp hpair
  simp [render_span, hf, if_neg hne, hps]

/-- C1: when the visible width of the left block plus the visible width of
the right block is strictly below the terminal width, the emitted line is
the left block, then `terminal_width - total` spaces, then the right
block; otherwise it is the left block, exactly one space, and the right
block, with no truncation and no failure from negative padding. -/
theorem format_event_layout (now : Option Duration) (w : Nat) (ev : LogEvent)
    (scope : Option (List SpanFrame)) (left right : Styled)
    (hl : render_left now ev = some left)
    (hr : render_right ev scope = some right) :
    (widthOf left + widthOf right < w →
      format_event now w ev scope =
        some (left ++ txt (spacesStr (w - (widthOf left + widthOf right))) ++
          right ++ txt "\n")) ∧
    (¬ widthOf left + widthOf right < w →
      format_event now w ev scope =
        some (left ++ txt " " ++ right ++ txt "\n")) := by
  constructor
  · intro hlt
    simp [format_event, hl, hr, hlt]
  · intro hge
    simp [format_event, hl, hr, if_neg hge]
    rfl

/-- Sample event used by concrete witnesses: the `Info`/`listening`
example of the spec. -/
def evSample : LogEvent := ⟨Level.info, "listening", "server", none, none⟩

/-- The rendered left block of the sample event at epoch time. -/
def leftSample : Styled := (render_left (some ⟨0, 0⟩) evSample).getD []

/-- The rendered right block of the sample event with no spans. -/
def rightSample : Styled := (render_right evSample none).getD []

/-- C1 witness: the sample event on an 80-column terminal is padded to
push the right block against the terminal edge. -/
theorem format_event_layout_witness :
    widthOf leftSample + widthOf rightSample < 80 ∧
    format_event (some ⟨0, 0⟩) 80 evSample none =
      some (leftSample ++
        txt (spacesStr (80 - (widthOf leftSample + widthOf rightSample))) ++
        rightSample ++ txt "\n") :=
  ⟨by decide,
   (format_event_layout (some ⟨0, 0⟩) 80 evSample none leftSample rightSample
     rfl rfl).1 (by decide)⟩

/-- C2: the claim says the seconds field of the timestamp equals
seconds-of-day modulo 60, but the source computes it with the bitwise AND
`secs & 60`.  At 61 elapsed seconds the code renders the impossible clock
reading `[00:01:60.000]` (61 AND 60 = 60) whereas 61 mod 60 = 1; the
sibling hour and minute computations use division and modulo, so the AND
is a slip of the code, not of the spec. -/
theorem format_time_land_bug :
    format_time (some ⟨61, 0⟩) =
      some (style dimC (style blueC (txt "[00:01:60.000]"))) ∧
    61 % 60 = 1 := by
  constructor
  · decide
  · rfl

/-- C3 counterexample: two render calls with identical event, span stack
and terminal width but different wall-clock readings produce different
output, so rendering is not a pure function of the triple alone. -/
theorem format_event_clock_dependence :
    format_event (some ⟨0, 0⟩) 80 ⟨Level.info, "m", "t", none, none⟩ none ≠
    format_event (some ⟨3600, 0⟩) 80 ⟨Level.info, "m", "t", none, none⟩ none := by
  decide

/-- C3 amended: rendering is a pure function of the quadruple (wall-clock
reading, terminal width, event, span stack): two calls with identical
inputs produce identical output, with no mutation of shared state and no
dependence on prior calls. -/
theorem format_event_deterministic (n₁ n₂ : Option Duration) (w₁ w₂ : Nat)
    (e₁ e₂ : LogEvent) (s₁ s₂ : Option (List SpanFrame))
    (hn : n₁ = n₂) (hw : w₁ = w₂) (he : e₁ = e₂) (hs : s₁ = s₂) :
    format_event n₁ w₁ e₁ s₁ = format_event n₂ w₂ e₂ s₂ := by
  subst hn hw he hs
  rfl

/-- C3 amended witness: determinism at a concrete input. -/
theorem format_event_deterministic_witness :
    format_event (some ⟨0, 0⟩) 80 ⟨Level.info, "m", "t", none, none⟩ none =
    format_event (some ⟨0, 0⟩) 80 ⟨Level.info, "m", "t", none, none⟩ none :=
  format_event_deterministic _ _ _ _ _ _ _ _ rfl rfl rfl rfl

/-- C4: a render call whose scope contains a span with a non-empty field
text in which some space-split fragment lacks the literal `=` separator
fails fast: the whole rendering aborts (the unchecked `unwrap` of the
source panics) and no line is produced. -/
theorem malformed_pair_aborts (now : Option Duration) (w : Nat) (ev : LogEvent)
    (spans : List SpanFrame) (sp : SpanFrame) (f p : String)
    (hsp : sp ∈ spans) (hf : sp.fields = some f) (hne : f ≠ "")
    (hp : p ∈ splitSpaces f) (hm : splitOnce (strip_ansi_codes p) '=' = none) :
    format_event now w ev (some spans) = none := by
  have h1 : render_span sp = none := render_span_malformed sp f p hf hne hp hm
  have h2 : render_span_list spans = none :=
    render_span_list_mem_none _ _ hsp h1
  have h3 : render_right ev (some spans) = none := by simp [render_right, h2]
  cases hL : render_left now ev <;> simp [format_event, hL, h3]

/-- C4 witness: a span whose field text `novalue` has no `=` aborts the
render call. -/
theorem malformed_pair_aborts_witness :
    format_event (some ⟨0, 0⟩) 80 ⟨Level.info, "m", "t", none, none⟩
      (some [⟨"s", some "novalue"⟩]) = none :=
  malformed_pair_aborts _ _ _ _ ⟨"s", some "novalue"⟩ "novalue" "novalue"
    (by decide) rfl (by decide) (by decide) (by decide)

/-- C5: with at least one active span the right block is the target, then
`(` + the comma-joined renderings of the spans from root to current + `)`,
then the location segment; each span renders as its name followed, when it
carries non-empty fields, by a parenthesized comma-joined `key: value`
list; the span `request` with field `id=42` strips to `request(id: 42)`. -/
theorem span_trail_structure (ev : LogEvent) (spans : List SpanFrame)
    (infos : List Styled) (h : render_span_list spans = some infos) :
    render_right ev (some spans) =
      some (style dimC (style purpleC (txt ev.target)) ++
        (style dimC (style purpleC (txt "(")) ++
         joinStyled (style dimC (txt ", ")) infos ++
         style dimC (style purpleC (txt ")"))) ++
        render_loc ev.file ev.line) ∧
    (∀ sp g prs, SpanFrame.fields sp = some g → g ≠ "" →
      render_pairs (splitSpaces g) = some prs →
      render_span sp =
        some (style dimC (txt sp.name) ++ style dimC (txt "(") ++
          joinStyled (style dimC (txt ", ")) prs ++ style dimC (txt ")"))) ∧
    (render_span ⟨"request", some "id=42"⟩).map strip =
      some "request(id: 42)" := by
  refine ⟨?_, ?_, by decide⟩
  · simp [render_right, h]
  · intro sp g prs hg hne hprs
    simp [render_span, hg, if_neg hne, hprs]

/-- C5 witness: the right block of an event inside the `request` span
strips to `app(request(id: 42)) <unknown>.rs:?? `. -/
theorem span_trail_structure_witness :
    (render_right ⟨Level.info, "done", "app", none, none⟩
        (some [⟨"request", some "id=42"⟩])).map strip =
      some "app(request(id: 42)) <unknown>.rs:?? " := by
  have h := span_trail_structure ⟨Level.info, "done", "app", none, none⟩
      [⟨"request", some "id=42"⟩] _ rfl
  rw [h.1]
  decide

/-- C6: a missing source file renders as the literal `<unknown>.rs` and a
missing source line as the literal `??` in the `file:line` segment, and a
render call does not fail on these missing optional fields (it still
yields a line whenever the clock reading and the span fields are
well-formed). -/
theorem missing_location_placeholders (now : Option Duration) (w : Nat)
    (ev : LogEvent) (scope : Option (List SpanFrame)) (d : Duration)
    (hn : now = some d) (hf : ev.file = none) (hl : ev.line = none)
    (hs : ∀ spans, scope = some spans → (render_span_list spans).isSome) :
    strip (render_loc ev.file ev.line) = " <unknown>.rs:?? " ∧
    (format_event now w ev scope).isSome := by
  subst hn
  constructor
  · rw [hf, hl]
    decide
  · obtain ⟨l, hL⟩ : ∃ l, render_left (some d) ev = some l := ⟨_, rfl⟩
    have hR : (render_right ev scope).isSome := by
      cases scope with
      | none => rfl
      | some spans =>
        obtain ⟨infos, hi⟩ := Option.isSome_iff_exists.mp (hs spans rfl)
        simp [render_right, hi]
    obtain ⟨r, hRR⟩ := Option.isSome_iff_exists.mp hR
    simp [format_event, hL, hRR]

/-- C6 witness: an event with no source file and no source line renders
the placeholders and still produces a line. -/
theorem missing_location_placeholders_witness :
    strip (render_loc (none : Option String) (none : Option Nat)) =
      " <unknown>.rs:?? " ∧
    (format_event (some ⟨0, 0⟩) 80 ⟨Level.info, "m", "t", none, none⟩
      none).isSome :=
  missing_location_placeholders (some ⟨0, 0⟩) 80
    ⟨Level.info, "m", "t", none, none⟩ none ⟨0, 0⟩ rfl rfl rfl
    (by intro spans h; simp at h)

/-- C7: when persisting the crash dump succeeds the panic report shows the
stored path and then the issue URL; when it fails the report contains the
literal `Tried to safe crashdump but failed: ` with the persistence error,
then the issue URL and no saved path; `display` is total, so neither
branch raises a secondary fault. -/
theorem display_dump_outcomes (pi : Eyre.PanicInfo) (tn : Option String)
    (tid : Nat) (path e : String) :
    strip (Eyre.display pi tn tid (Except.ok path)) =
      strip (Eyre.displayHeader pi tn tid) ++
      "\nMore info saved at " ++ path ++ ".\n" ++
      "Please, submit an issue at " ++ Eyre.ISSUE_URL ++
      " and attach report.\n" ∧
    strip (Eyre.display pi tn tid (Except.error e)) =
      strip (Eyre.displayHeader pi tn tid) ++
      "\nTried to safe crashdump but failed: " ++ e ++ "\n" ++
      "Please, submit an issue at " ++ Eyre.ISSUE_URL ++ ".\n" := by
  constructor <;>
    simp only [Eyre.display, strip_append, strip_style, strip_txt,
      String.append_assoc]

/-- C8: stripping all style markers from a rendered line yields exactly
the plain left-block content, the computed padding spaces, and the plain
right-block content (plus the line terminator), a plain `String` with no
marker segments remaining. -/
theorem strip_rendered_line (now : Option Duration) (w : Nat) (ev : LogEvent)
    (scope : Option (List SpanFrame)) (left right : Styled)
    (hl : render_left now ev = some left)
    (hr : render_right ev scope = some right) :
    (format_event now w ev scope).map strip =
      some (strip left ++
        spacesStr (if widthOf left + widthOf right < w then
          w - (widthOf left + widthOf right) else 1) ++
        strip right ++ "\n") := by
  simp [format_event, hl, hr, strip_append, strip_txt, String.append_assoc]

/-- C8 witness: the sample line strips to the plain blocks around 27
padding spaces. -/
theorem strip_rendered_line_witness :
    (format_event (some ⟨0, 0⟩) 80 evSample none).map strip =
      some ("[00:00:00.000]  INFO listening" ++ spacesStr 27 ++
        "server <unknown>.rs:?? " ++ "\n") := by
  have h := strip_rendered_line (some ⟨0, 0⟩) 80 evSample none
    leftSample rightSample rfl rfl
  rw [h]
  decide

/-- C9 counterexample: the field value `a b=c` contains a space, yet every
space-split fragment of the formatted pair `k=a b=c` has an `=`, so the
renderer does not abort: the render call still produces a line (the value
is merely mis-parsed as two pairs). -/
theorem value_with_space_renders :
    (' ' ∈ ("a b=c").data) ∧
    formatPairs [("k", "a b=c")] = "k=a b=c" ∧
    (format_event (some ⟨0, 0⟩) 80 ⟨Level.info, "m", "t", none, none⟩
      (some [⟨"s", some (formatPairs [("k", "a b=c")])⟩])).isSome := by
  decide

/-- C9 amended: span field text is split on single spaces before the `=`
split, so whenever some space-split fragment of the field text lacks `=`
the renderer aborts on the unchecked split; a field value containing a
space produces such a fragment exactly when the text after the space has
no `=` (witness: value `hello world`), even though every original pair had
a separator. -/
theorem fragment_without_sep_aborts (n f p : String) (hne : f ≠ "")
    (hp : p ∈ splitSpaces f) (hm : splitOnce (strip_ansi_codes p) '=' = none) :
    render_span ⟨n, some f⟩ = none :=
  render_span_malformed _ f p rfl hne hp hm

/-- C9 amended witness: the pair list `[(k, hello world)]` formats to
`k=hello world`, whose fragment `world` has no `=`, and the span aborts. -/
theorem fragment_without_sep_aborts_witness :
    render_span ⟨"s", some (formatPairs [("k", "hello world")])⟩ = none :=
  fragment_without_sep_aborts "s" _ "world" (by decide) (by decide) (by decide)

/-- C10: a system clock before the Unix epoch (a failed
`duration_since(UNIX_EPOCH)`, modelled as `none`) makes time formatting
fail through the `expect` assertion instead of substituting any default
timestamp, and the whole render call aborts with it. -/
theorem clock_before_epoch_aborts (w : Nat) (ev : LogEvent)
    (scope : Option (List SpanFrame)) :
    format_time none = none ∧ format_event none w ev scope = none :=
  ⟨rfl, rfl⟩
